import Mathlib

/-!
Verification of the resource-lifecycle contract of the
raster-foundry-python-client repository.

The repository material under `src/` is the example notebook
`examples/Datasources.ipynb`, which exercises a CRUD client for the
"datasource" resource: list, get, create, update, delete, and a band
factory.  The client implementation itself (`rasterfoundry.api.API`,
`rasterfoundry.models.datasource.Datasource`) is not part of the
provided sources, so the operations are modelled from the spec's
contract (section 4.1) as explicit state passing over a server state.
The notebook's own usage patterns (in particular, sending the complete
cached record dict on update) are embedded from the notebook source.
-/

namespace RF

/-- Band, as in the spec's data model: one spectral/data channel with a
text name, a string-encoded ordinal index, and a floating-point no-data
value (modelled as a rational, since the client only carries the value). -/
structure Band where
  name : String
  index : String
  noDataValue : Rat
deriving DecidableEq, Repr

/-- Modelled from the spec: `make_band(name, index, no_data_value)` is a
pure constructor producing a Band value object
(`Datasource.create_datasource_band` in the notebook; its implementation
is not in the provided sources). -/
def make_band (name : String) (index : String) (noDataValue : Rat) : Band :=
  { name := name, index := index, noDataValue := noDataValue }

/-- Datasource record: an opaque server-assigned id, a name, and an
ordered sequence of Bands (spec section 3). -/
structure Datasource where
  id : Nat
  name : String
  bands : List Band
deriving DecidableEq, Repr

/-- Server-side state: the collection of Datasource records, plus the
next fresh id the server will assign (the spec says ids are assigned
server-side and are opaque). -/
structure ServerState where
  records : List Datasource
  nextId : Nat
deriving DecidableEq, Repr

/-- Error kinds surfaced to the caller (spec section 7). -/
inductive ApiError where
  | NotFound
  | ValidationError
  | AuthError
  | TransportError
deriving DecidableEq, Repr

/-- Modelled from the spec: `get(id)` returns one Datasource by
identifier and fails with NotFound if no such id exists server-side
(`api.get_datasource_by_id` in the notebook; implementation not in the
provided sources). -/
def get (s : ServerState) (i : Nat) : Except ApiError Datasource :=
  match s.records.find? (fun r => r.id == i) with
  | some r => Except.ok r
  | none => Except.error ApiError.NotFound

/-- Modelled from the spec: `create(name, bands)` constructs a new
Datasource server-side, returning the new record including its generated
id, or fails with ValidationError if the fields are malformed
(`Datasource.create` in the notebook; implementation not in the provided
sources).  What counts as malformed is server-defined, so the validity
check is a parameter of the model. -/
def create (valid : String → List Band → Bool) (s : ServerState)
    (name : String) (bands : List Band) :
    Except ApiError (ServerState × Datasource) :=
  if valid name bands then
    let r : Datasource := { id := s.nextId, name := name, bands := bands }
    Except.ok ({ records := r :: s.records, nextId := s.nextId + 1 }, r)
  else
    Except.error ApiError.ValidationError

/-- A field-level update: each field is optionally supplied; fields left
out are to remain unchanged (spec: a field-level mutation touching only
the supplied fields of the record). -/
structure FieldUpdate where
  name : Option String
  bands : Option (List Band)
deriving DecidableEq, Repr

/-- Apply a field update to one record: supplied fields replace the
stored ones, absent fields keep the stored values; the id is never
changed. -/
def applyUpdate (f : FieldUpdate) (r : Datasource) : Datasource :=
  { id := r.id, name := f.name.getD r.name, bands := f.bands.getD r.bands }

/-- Modelled from the spec: `update(id, fields)` applies a field-level
mutation to an existing Datasource, returns nothing meaningful, fails
with NotFound if the id is absent and with ValidationError on bad fields
(`Datasource.update` in the notebook; implementation not in the provided
sources).  Field validity is server-defined, hence a parameter. -/
def update (valid : FieldUpdate → Bool) (s : ServerState) (i : Nat)
    (f : FieldUpdate) : Except ApiError ServerState :=
  if valid f then
    if s.records.any (fun r => r.id == i) then
      let upd := fun r => if r.id == i then applyUpdate f r else r
      Except.ok { records := s.records.map upd, nextId := s.nextId }
    else
      Except.error ApiError.NotFound
  else
    Except.error ApiError.ValidationError

/-- Modelled from the spec: `delete(id)` removes the Datasource
server-side (`Datasource.delete` in the notebook; implementation not in
the provided sources). -/
def delete (s : ServerState) (i : Nat) : ServerState :=
  { records := s.records.filter (fun r => r.id != i), nextId := s.nextId }

/-- From the notebook source: the update cell sends the complete cached
record state (`vars(new_datasource_back)['_Model__dict']`), not only the
modified field, so every updatable field is supplied, taken from the
client's cached copy. -/
def fullFieldUpdate (r : Datasource) : FieldUpdate :=
  { name := some r.name, bands := some r.bands }

/-- The update call exactly as the notebook issues it: target id and
field set both come from the client's cached record. -/
def notebookUpdate (valid : FieldUpdate → Bool) (s : ServerState)
    (cached : Datasource) : Except ApiError ServerState :=
  update valid s cached.id (fullFieldUpdate cached)

/-- The client object: per the spec (sections 5 and 6) its only state is
the authentication credential supplied at construction. -/
structure Client where
  refreshToken : String
deriving DecidableEq, Repr

/-- Modelled from the spec: client construction from a refresh token
(`API(refresh_token=...)` in the notebook; implementation not in the
provided sources). -/
def API (refreshToken : String) : Client :=
  { refreshToken := refreshToken }

/-- An operation performed through the client threads the client value:
listing the visible collection. -/
def clientList (c : Client) (s : ServerState) :
    Client × List Datasource :=
  (c, s.records)

/-- Get performed through the client instance. -/
def clientGet (c : Client) (s : ServerState) (i : Nat) :
    Client × Except ApiError Datasource :=
  (c, get s i)

/-- Create performed through the client instance. -/
def clientCreate (valid : String → List Band → Bool) (c : Client)
    (s : ServerState) (name : String) (bands : List Band) :
    Client × Except ApiError (ServerState × Datasource) :=
  (c, create valid s name bands)

/-- Update performed through the client instance. -/
def clientUpdate (valid : FieldUpdate → Bool) (c : Client)
    (s : ServerState) (i : Nat) (f : FieldUpdate) :
    Client × Except ApiError ServerState :=
  (c, update valid s i f)

/-- Delete performed through the client instance. -/
def clientDelete (c : Client) (s : ServerState) (i : Nat) :
    Client × ServerState :=
  (c, delete s i)

/-! Concrete example data, following the notebook's scenario: three
bands red/green/blue and the datasource "Test Datasource 1".  Used by
the witness theorems. -/

/-- The notebook's three example bands, in order. -/
def exBands : List Band :=
  [make_band "red" "0" 100, make_band "green" "1" 200,
   make_band "blue" "2" 300]

/-- A validity check accepting everything (the spec leaves what is
malformed to the server). -/
def acceptAll : String → List Band → Bool := fun _ _ => true

/-- A field-update validity check accepting everything. -/
def acceptAllFields : FieldUpdate → Bool := fun _ => true

/-- An empty server state. -/
def exEmpty : ServerState := { records := [], nextId := 0 }

/-- The server state after the notebook's create call, starting empty. -/
def exState : ServerState :=
  { records := [{ id := 0, name := "Test Datasource 1", bands := exBands }],
    nextId := 1 }

/-- The record the notebook's create call returns. -/
def exRecord : Datasource :=
  { id := 0, name := "Test Datasource 1", bands := exBands }

/-! Helper lemmas about the model. -/

/-- A field update never changes the id. -/
theorem applyUpdate_id (f : FieldUpdate) (r : Datasource) :
    (applyUpdate f r).id = r.id := rfl

/-- Applying the same field update twice is the same as applying it
once. -/
theorem applyUpdate_idem (f : FieldUpdate) (r : Datasource) :
    applyUpdate f (applyUpdate f r) = applyUpdate f r := by
  cases hn : f.name <;> cases hb : f.bands <;>
    simp [applyUpdate, hn, hb]

/-- After filtering out every record with a given id, no record with
that id can be found. -/
theorem find_after_filter (l : List Datasource) (i : Nat) :
    (l.filter (fun r => r.id != i)).find? (fun r => r.id == i) = none := by
  induction l with
  | nil => rfl
  | cons a l ih =>
    by_cases h : a.id = i
    · simp [List.filter_cons, h, ih]
    · simp [List.filter_cons, h, List.find?_cons, ih]

/-- The per-record step of update preserves the id. -/
theorem upd_step_id (f : FieldUpdate) (i : Nat) (r : Datasource) :
    (if r.id == i then applyUpdate f r else r).id = r.id := by
  by_cases h : r.id = i <;> simp [h, applyUpdate_id]

/-- Mapping the per-record update step over the records does not change
which ids are present. -/
theorem any_map_upd (l : List Datasource) (f : FieldUpdate) (i : Nat) :
    (l.map (fun r => if r.id == i then applyUpdate f r else r)).any
      (fun r => r.id == i) = l.any (fun r => r.id == i) := by
  induction l with
  | nil => rfl
  | cons a l ih =>
    rw [List.map_cons, List.any_cons, List.any_cons, upd_step_id, ih]

/-- The per-record update step is idempotent, so mapping it twice is the
same as mapping it once. -/
theorem map_upd_idem (l : List Datasource) (f : FieldUpdate) (i : Nat) :
    ((l.map (fun r => if r.id == i then applyUpdate f r else r)).map
      (fun r => if r.id == i then applyUpdate f r else r)) =
      l.map (fun r => if r.id == i then applyUpdate f r else r) := by
  induction l with
  | nil => rfl
  | cons a l ih =>
    rw [List.map_cons, List.map_cons, ih]
    by_cases h : a.id = i
    · simp [h, applyUpdate_id, applyUpdate_idem]
    · simp [h]

/-! The claim theorems. -/

/-- C5: `make_band(name, index, no_data_value)` is a pure constructor:
the returned Band carries exactly the given name, index and no-data
value (and, the model being purely functional, it touches no client or
server state and cannot fail). -/
theorem make_band_is_pure_constructor (n i : String) (v : Rat) :
    (make_band n i v).name = n ∧ (make_band n i v).index = i ∧
      (make_band n i v).noDataValue = v :=
  ⟨rfl, rfl, rfl⟩

/-- C3: after `delete(id)`, a subsequent `get(id)` with no intervening
re-creation fails with NotFound, for every server state and id. -/
theorem delete_then_get_not_found (s : ServerState) (i : Nat) :
    get (delete s i) i = Except.error ApiError.NotFound := by
  simp only [get, delete]
  rw [find_after_filter]

/-- C1: round-trip: whenever `create(name, bands)` succeeds with record
`r`, `get(r.id)` on the resulting state returns a record whose name and
bands equal those supplied to create. -/
theorem create_get_round_trip (valid : String → List Band → Bool)
    (s : ServerState) (nm : String) (bs : List Band)
    (s₂ : ServerState) (r : Datasource)
    (h : create valid s nm bs = Except.ok (s₂, r)) :
    get s₂ r.id = Except.ok r ∧ r.name = nm ∧ r.bands = bs := by
  unfold create at h
  by_cases hv : valid nm bs
  · simp [hv] at h
    obtain ⟨h₁, h₂⟩ := h
    subst h₁
    subst h₂
    refine ⟨?_, rfl, rfl⟩
    simp [get, List.find?_cons]
  · simp [hv] at h

/-- Witness for C1 at the notebook's example scenario. -/
theorem create_get_round_trip_witness :
    get exState exRecord.id = Except.ok exRecord ∧
      exRecord.name = "Test Datasource 1" ∧ exRecord.bands = exBands :=
  create_get_round_trip acceptAll exEmpty "Test Datasource 1" exBands
    exState exRecord rfl

/-- C2: band order preservation: whenever create succeeds, the returned
record's band list equals the supplied one in exactly the supplied
order; the stored record keeps that band list (get returns it), and it
survives deletion of any other id. -/
theorem create_band_order (valid : String → List Band → Bool)
    (s : ServerState) (nm : String) (bs : List Band)
    (s₂ : ServerState) (r : Datasource)
    (h : create valid s nm bs = Except.ok (s₂, r)) :
    r.bands = bs ∧ get s₂ r.id = Except.ok r ∧
      ∀ j, j ≠ r.id → get (delete s₂ j) r.id = Except.ok r := by
  unfold create at h
  by_cases hv : valid nm bs
  · simp [hv] at h
    obtain ⟨h₁, h₂⟩ := h
    subst h₁
    subst h₂
    refine ⟨rfl, ?_, ?_⟩
    · simp [get, List.find?_cons]
    · intro j hj
      have hne : s.nextId ≠ j := fun e => hj e.symm
      simp [get, delete, List.filter_cons, hne, List.find?_cons]
  · simp [hv] at h

/-- Witness for C2 at the notebook's example scenario. -/
theorem create_band_order_witness :
    exRecord.bands = exBands ∧ get exState exRecord.id = Except.ok exRecord ∧
      get (delete exState 7) exRecord.id = Except.ok exRecord := by
  have h := create_band_order acceptAll exEmpty "Test Datasource 1" exBands
    exState exRecord rfl
  exact ⟨h.1, h.2.1, h.2.2 7 (by decide)⟩

/-- C4: update is idempotent: whenever `update(id, fields)` succeeds and
yields server state `s₂`, issuing the very same update again on `s₂`
succeeds and leaves the state at `s₂`. -/
theorem update_idempotent (valid : FieldUpdate → Bool) (s : ServerState)
    (i : Nat) (f : FieldUpdate) (s₂ : ServerState)
    (h : update valid s i f = Except.ok s₂) :
    update valid s₂ i f = Except.ok s₂ := by
  unfold update at h ⊢
  by_cases hv : valid f
  · simp only [hv, if_true] at h ⊢
    by_cases ha : s.records.any (fun r => r.id == i)
    · simp only [ha, if_true] at h
      injection h with h₂
      subst h₂
      simp only [any_map_upd, ha, if_true, map_upd_idem]
    · simp [ha] at h
  · simp [hv] at h

/-- The field update the notebook's update cell amounts to, restricted
to the one field it modified. -/
def exUpdate : FieldUpdate :=
  { name := some "Test Datasource 1 updated", bands := none }

/-- The record of `exState` with the notebook's name change applied. -/
def exRenamed : Datasource :=
  { id := 0, name := "Test Datasource 1 updated", bands := exBands }

/-- The server state after applying `exUpdate` to `exState`. -/
def exUpdatedState : ServerState :=
  { records := [exRenamed], nextId := 1 }

/-- Witness for C4 at the notebook's example scenario. -/
theorem update_idempotent_witness :
    update acceptAllFields exUpdatedState 0 exUpdate =
      Except.ok exUpdatedState :=
  update_idempotent acceptAllFields exState 0 exUpdate exUpdatedState rfl

/-- C6: `get(id)` returns exactly one Datasource (one with the requested
id, drawn from the server's records) when a record with that id exists
server-side, and fails with NotFound when no record has that id. -/
theorem get_one_or_not_found (s : ServerState) (i : Nat) :
    ((∃ r, r ∈ s.records ∧ r.id = i) →
      ∃ r, get s i = Except.ok r ∧ r ∈ s.records ∧ r.id = i) ∧
    ((∀ r, r ∈ s.records → r.id ≠ i) →
      get s i = Except.error ApiError.NotFound) := by
  constructor
  · rintro ⟨r₀, hmem, hid⟩
    cases hf : s.records.find? (fun r => r.id == i) with
    | some r =>
      refine ⟨r, ?_, List.mem_of_find?_eq_some hf, ?_⟩
      · simp [get, hf]
      · have hp := List.find?_some hf
        simpa using hp
    | none =>
      exfalso
      have hr := List.find?_eq_none.mp hf r₀ hmem
      simp [hid] at hr
  · intro hall
    have hf : s.records.find? (fun r => r.id == i) = none := by
      rw [List.find?_eq_none]
      intro r hr
      simpa using hall r hr
    simp [get, hf]

/-- Witness for C6: the id 0 exists in the example state and is found;
the id 5 does not and gets NotFound. -/
theorem get_one_or_not_found_witness :
    (∃ r, get exState 0 = Except.ok r ∧ r ∈ exState.records ∧ r.id = 0) ∧
      get exState 5 = Except.error ApiError.NotFound := by
  refine ⟨(get_one_or_not_found exState 0).1 ⟨exRecord, ?_, rfl⟩,
    (get_one_or_not_found exState 5).2 ?_⟩
  · simp [exState, exRecord]
  · intro r hr
    simp [exState] at hr
    subst hr
    decide

/-- A validity check rejecting everything, standing in for a server that
finds the fields malformed. -/
def rejectAll : String → List Band → Bool := fun _ _ => false

/-- C7: `create(name, bands)` either succeeds and returns the new record
carrying the server-generated id (the state's fresh id), name and bands
— so no created record comes back without its generated id — or fails
with ValidationError when the server finds the fields malformed. -/
theorem create_id_or_validation (valid : String → List Band → Bool)
    (s : ServerState) (nm : String) (bs : List Band) :
    (valid nm bs = true →
      ∃ s₂ r, create valid s nm bs = Except.ok (s₂, r) ∧
        r.id = s.nextId ∧ r.name = nm ∧ r.bands = bs) ∧
    (valid nm bs = false →
      create valid s nm bs = Except.error ApiError.ValidationError) := by
  constructor
  · intro hv
    refine ⟨⟨⟨s.nextId, nm, bs⟩ :: s.records, s.nextId + 1⟩,
      ⟨s.nextId, nm, bs⟩, ?_, rfl, rfl, rfl⟩
    simp [create, hv]
  · intro hv
    simp [create, hv]

/-- Witness for C7: an accepting server creates the notebook's example
datasource with its generated id; a rejecting server yields
ValidationError. -/
theorem create_id_or_validation_witness :
    (∃ s₂ r, create acceptAll exEmpty "Test Datasource 1" exBands =
        Except.ok (s₂, r) ∧ r.id = exEmpty.nextId ∧
        r.name = "Test Datasource 1" ∧ r.bands = exBands) ∧
      create rejectAll exEmpty "Test Datasource 1" exBands =
        Except.error ApiError.ValidationError :=
  ⟨(create_id_or_validation acceptAll exEmpty "Test Datasource 1"
      exBands).1 rfl,
   (create_id_or_validation rejectAll exEmpty "Test Datasource 1"
      exBands).2 rfl⟩

/-- A field-update validity check rejecting everything, standing in for
a server that finds the fields malformed. -/
def rejectAllFields : FieldUpdate → Bool := fun _ => false

/-- C8: update applies only the supplied fields: on success the fresh-id
counter and the record count are unchanged, records with other ids are
untouched, the targeted record becomes its field-updated version, and a
field not supplied in the update (and the id, always) is never changed
by the field-updated version; update fails with NotFound when the id is
absent and with ValidationError on bad fields. -/
theorem update_frame (valid : FieldUpdate → Bool) (s : ServerState)
    (i : Nat) (f : FieldUpdate) :
    (valid f = false →
      update valid s i f = Except.error ApiError.ValidationError) ∧
    (valid f = true → (∀ r, r ∈ s.records → r.id ≠ i) →
      update valid s i f = Except.error ApiError.NotFound) ∧
    (∀ s₂, update valid s i f = Except.ok s₂ →
      s₂.nextId = s.nextId ∧ s₂.records.length = s.records.length ∧
      (∀ r, r ∈ s.records → r.id ≠ i → r ∈ s₂.records) ∧
      (∀ r, r ∈ s.records → r.id = i → applyUpdate f r ∈ s₂.records) ∧
      (∀ r, (f.name = none → (applyUpdate f r).name = r.name) ∧
        (f.bands = none → (applyUpdate f r).bands = r.bands) ∧
        (applyUpdate f r).id = r.id)) := by
  refine ⟨?_, ?_, ?_⟩
  · intro hv
    simp [update, hv]
  · intro hv hall
    have ha : s.records.any (fun r => r.id == i) = false := by
      rw [List.any_eq_false]
      intro r hr
      simpa using hall r hr
    simp [update, hv, ha]
  · intro s₂ h
    unfold update at h
    by_cases hv : valid f
    · simp only [hv, if_true] at h
      by_cases ha : s.records.any (fun r => r.id == i)
      · simp only [ha, if_true] at h
        injection h with h₂
        subst h₂
        refine ⟨rfl, List.length_map s.records _, ?_, ?_, ?_⟩
        · intro r hr hne
          have hb : (r.id == i) = false := by simpa using hne
          have hm := List.mem_map_of_mem
            (fun r => if r.id == i then applyUpdate f r else r) hr
          simpa [hb] using hm
        · intro r hr heq
          have hb : (r.id == i) = true := by simpa using heq
          have hm := List.mem_map_of_mem
            (fun r => if r.id == i then applyUpdate f r else r) hr
          simpa [hb] using hm
        · intro r
          refine ⟨?_, ?_, rfl⟩
          · intro hn
            simp [applyUpdate, hn]
          · intro hb
            simp [applyUpdate, hb]
      · simp [ha] at h
    · simp [hv] at h

/-- Witness for C8: a rejecting server yields ValidationError; an absent
id yields NotFound; the successful example update keeps the fresh-id
counter. -/
theorem update_frame_witness :
    update rejectAllFields exState 0 exUpdate =
        Except.error ApiError.ValidationError ∧
      update acceptAllFields exState 5 exUpdate =
        Except.error ApiError.NotFound ∧
      exUpdatedState.nextId = exState.nextId := by
  refine ⟨(update_frame rejectAllFields exState 0 exUpdate).1 rfl,
    (update_frame acceptAllFields exState 5 exUpdate).2.1 rfl ?_,
    ((update_frame acceptAllFields exState 0 exUpdate).2.2
      exUpdatedState rfl).1⟩
  intro r hr
  simp [exState] at hr
  subst hr
  decide

/-- When some record carries the cached record's id, mapping the
notebook's full-state update step over the records makes the first such
record equal to the cached record, so it is what a lookup finds. -/
theorem find_map_full (l : List Datasource) (c : Datasource)
    (h : l.any (fun r => r.id == c.id) = true) :
    (l.map (fun r => if r.id == c.id then
        applyUpdate (fullFieldUpdate c) r else r)).find?
      (fun r => r.id == c.id) = some c := by
  induction l with
  | nil => simp at h
  | cons a l ih =>
    by_cases hid : a.id = c.id
    · have hc : applyUpdate (fullFieldUpdate c) a = c := by
        cases c
        simp [applyUpdate, fullFieldUpdate, hid]
      simp [List.find?_cons, hid, hc]
    · have ha : l.any (fun r => r.id == c.id) = true := by
        simpa [hid] using h
      simpa [List.find?_cons, hid] using ih ha

/-- C9: the notebook's update cell transmits the complete cached record
state, so whenever it succeeds, every field of the post-update server
record at that id equals the client's cached copy — the server record
becomes exactly the cached record, stale fields included. -/
theorem notebook_update_sends_full_state (valid : FieldUpdate → Bool)
    (s : ServerState) (cached : Datasource) (s₂ : ServerState)
    (h : notebookUpdate valid s cached = Except.ok s₂) :
    get s₂ cached.id = Except.ok cached := by
  unfold notebookUpdate update at h
  by_cases hv : valid (fullFieldUpdate cached)
  · simp only [hv, if_true] at h
    by_cases ha : s.records.any (fun r => r.id == cached.id)
    · simp only [ha, if_true] at h
      injection h with h₂
      subst h₂
      simp only [get]
      rw [find_map_full s.records cached ha]
    · simp [ha] at h
  · simp [hv] at h

/-- A server state whose stored record has gone stale relative to the
client's cached copy: old name, no bands. -/
def exStale : ServerState :=
  { records := [{ id := 0, name := "old name", bands := [] }],
    nextId := 1 }

/-- The client's cached copy of record 0, differing from the server's in
both name and bands. -/
def exCached : Datasource :=
  { id := 0, name := "Test Datasource 1 updated", bands := exBands }

/-- The server state after the notebook's full-state update of the stale
record. -/
def exAfterFull : ServerState :=
  { records := [exCached], nextId := 1 }

/-- Witness for C9: updating the stale server record with the full
cached state makes the server record equal the cached copy. -/
theorem notebook_update_sends_full_state_witness :
    get exAfterFull exCached.id = Except.ok exCached :=
  notebook_update_sends_full_state acceptAllFields exStale exCached
    exAfterFull rfl

/-- C10: the authentication credential is fixed at construction and no
lifecycle operation performed through the client changes the client's
stored credential. -/
theorem client_auth_invariant (t : String) (c : Client) (s : ServerState)
    (vc : String → List Band → Bool) (vf : FieldUpdate → Bool)
    (i : Nat) (nm : String) (bs : List Band) (f : FieldUpdate) :
    (API t).refreshToken = t ∧
      (clientList c s).1 = c ∧
      (clientGet c s i).1 = c ∧
      (clientCreate vc c s nm bs).1 = c ∧
      (clientUpdate vf c s i f).1 = c ∧
      (clientDelete c s i).1 = c :=
  ⟨rfl, rfl, rfl, rfl, rfl, rfl⟩

end RF
